import Mathlib

/-!
Shallow embedding of the interactive kinetic-particle application
(store.ts, components/WebcamHandTracker.tsx, components/Particles.tsx,
the Controls component and services/gemini.ts), together with theorems
settling the specification claims about it.

Numeric values are modelled over ℚ (exact rational arithmetic standing in
for JS numbers); the particle-cloud geometry, which uses trigonometry, is
modelled over ℝ.
-/

namespace Kinetic

/-! ### Hand tracker (WebcamHandTracker.tsx) -/

/-- A single MediaPipe hand landmark: normalized x, y coordinates and a
relative depth z. -/
structure Landmark where
  x : ℚ
  y : ℚ
  z : ℚ
deriving DecidableEq

/-- The 21 landmarks of one detected hand, indexed as in MediaPipe
(wrist is index 0, index fingertip is 8, etc.). -/
def Hand : Type := Fin 21 → Landmark

/-- Squared Euclidean distance between two landmarks.  The source compares
Math.hypot distances; `isFingerFolded` compares the squares instead, which
is equivalent because the square root is strictly monotone — the claim
theorem for the gesture classifier states the comparison in terms of the
real distances `landmarkDist` and proves the two agree. -/
def distSq (a b : Landmark) : ℚ :=
  (a.x - b.x) ^ 2 + (a.y - b.y) ^ 2 + (a.z - b.z) ^ 2

/-- Euclidean distance between two landmarks, as in the source's
`Math.hypot(tip.x - wrist.x, tip.y - wrist.y, tip.z - wrist.z)`. -/
noncomputable def landmarkDist (a b : Landmark) : ℝ :=
  Real.sqrt ((distSq a b : ℚ) : ℝ)

/-- The `isFingerFolded` helper of `predictWebcam`: a finger is folded when
its tip is strictly closer to the wrist (landmark 0) than its PIP joint is. -/
def isFingerFolded (l : Hand) (tipIdx pipIdx : Fin 21) : Bool :=
  decide (distSq (l tipIdx) (l 0) < distSq (l pipIdx) (l 0))

/-- The folded-finger count of `predictWebcam`: index (8,6), middle (12,10),
ring (16,14) and pinky (20,18) are checked; the thumb is excluded. -/
def foldedCount (l : Hand) : ℕ :=
  (if isFingerFolded l 8 6 then 1 else 0) +
  (if isFingerFolded l 12 10 then 1 else 0) +
  (if isFingerFolded l 16 14 then 1 else 0) +
  (if isFingerFolded l 20 18 then 1 else 0)

/-- Gesture labels stored in the zustand store (`HandGesture` minus `null`,
which is modelled as `Option.none` where it can occur). -/
inductive HandGesture where
  | OPEN
  | CLOSED
  | NEUTRAL
deriving DecidableEq

/-- The threshold logic of `predictWebcam`: `foldedCount >= 4` gives CLOSED,
otherwise `foldedCount <= 1` gives OPEN, otherwise NEUTRAL. -/
def classifyGesture (n : ℕ) : HandGesture :=
  if n ≥ 4 then .CLOSED
  else if n ≤ 1 then .OPEN
  else .NEUTRAL

/-- Gesture computed for a detected hand. -/
def detectGesture (l : Hand) : HandGesture :=
  classifyGesture (foldedCount l)

/-- Scene-space hand position derived from the index fingertip (landmark 8):
`x = (0.5 - tip.x) * 10`, `y = (0.5 - tip.y) * 8`, `z = tip.z * -10`. -/
def handScenePos (l : Hand) : ℚ × ℚ × ℚ :=
  ((1/2 - (l 8).x) * 10, (1/2 - (l 8).y) * 8, (l 8).z * (-10))

/-- The hand-related fields of the zustand store. -/
structure TrackerState where
  handPosition : Option (ℚ × ℚ × ℚ)
  isHandDetected : Bool
  gesture : Option HandGesture
deriving DecidableEq

/-- One detection step of `predictWebcam` acting on the store: if a hand is
found, the detection flag, the scene position of the index fingertip and the
classified gesture are written; otherwise all three fields are cleared. -/
def predictWebcamStep (result : Option Hand) (_s : TrackerState) : TrackerState :=
  match result with
  | some l =>
      { handPosition := some (handScenePos l)
        isHandDetected := true
        gesture := some (detectGesture l) }
  | none =>
      { handPosition := none
        isHandDetected := false
        gesture := none }

/-! ### Renderer helpers (Particles.tsx) -/

/-- THREE.MathUtils.lerp: `(1 - t) * x + t * y`. -/
def lerp (x y t : ℚ) : ℚ := (1 - t) * x + t * y

/-- THREE.MathUtils.clamp: `Math.max(lo, Math.min(hi, v))`. -/
def clamp (v lo hi : ℚ) : ℚ := max lo (min hi v)

/-- Scale lerp factor `LERP_SPEED` of the `useFrame` callback. -/
def LERP_SPEED : ℚ := 0.12

/-- Target expansion scale computed each frame from the store state:
CLOSED shrinks to 0.4, OPEN expands to 1.3, anything else (NEUTRAL, a null
gesture, or no detected hand) resets to 1.0. -/
def targetScale (isHandDetected : Bool) (gesture : Option HandGesture) : ℚ :=
  if isHandDetected then
    match gesture with
    | some .CLOSED => 0.4
    | some .OPEN => 1.3
    | _ => 1.0
  else 1.0

/-- Per-frame update of `currentScale`:
`lerp(currentScale, targetScale, LERP_SPEED)`. -/
def scaleStep (currentScale : ℚ) (isHandDetected : Bool)
    (gesture : Option HandGesture) : ℚ :=
  lerp currentScale (targetScale isHandDetected gesture) LERP_SPEED

/-- Momentum clamp bound `MAX_SPEED` of the `useFrame` callback. -/
def MAX_SPEED : ℚ := 0.5

/-- Friction factor `FRICTION` applied when no hand is detected. -/
def FRICTION : ℚ := 0.98

/-- Momentum lerp factor `MOMENTUM_LERP` applied while a hand is detected. -/
def MOMENTUM_LERP : ℚ := 0.15

/-- Velocity sensitivity `SENSITIVITY` of the rotation physics. -/
def SENSITIVITY : ℚ := 0.5

/-- Momentum update while a hand is detected, from the frame-to-frame hand
displacement (dx, dy): the target velocity is `(-dy, dx) * SENSITIVITY` and
each momentum component is lerped toward it by `MOMENTUM_LERP`. -/
def momentumHandStep (m : ℚ × ℚ) (dx dy : ℚ) : ℚ × ℚ :=
  (lerp m.1 (-dy * SENSITIVITY) MOMENTUM_LERP,
   lerp m.2 (dx * SENSITIVITY) MOMENTUM_LERP)

/-- The per-frame momentum clamp: each component is clamped independently to
the interval [-MAX_SPEED, MAX_SPEED]. -/
def clampMomentum (m : ℚ × ℚ) : ℚ × ℚ :=
  (clamp m.1 (-MAX_SPEED) MAX_SPEED, clamp m.2 (-MAX_SPEED) MAX_SPEED)

/-- One component of the idle (no hand) momentum update: multiply by
FRICTION, then snap to exactly 0 when the magnitude falls below 0.0001. -/
def frictionStep (m : ℚ) : ℚ :=
  if |m * FRICTION| < 0.0001 then 0 else m * FRICTION

/-- Iterated idle momentum update over n consecutive frames with no hand. -/
def frictionIter : ℕ → ℚ → ℚ
  | 0, m => m
  | n + 1, m => frictionStep (frictionIter n m)

/-- Depth influence factor for the interaction radius:
`clamp(1 + |handZ| * 0.5, 0.5, 3.0)`. -/
def zInfluence (handZ : ℚ) : ℚ :=
  clamp (1 + |handZ| * 0.5) 0.5 3.0

/-- Per-frame update of the `uInteractRadius` uniform while a hand is
detected: lerp the uniform toward `config.interactionRadius * zInfluence`
with factor 0.1. -/
def interactRadiusStep (uInteractRadius configRadius handZ : ℚ) : ℚ :=
  lerp uInteractRadius (configRadius * zInfluence handZ) 0.1

/-! ### Particle cloud generation (Particles.tsx useMemo) -/

/-- Position of one generated particle from three uniform random draws in
[0, 1): `theta = u1 * 2π`, `phi = acos(u2 * 2 - 1)`, `radius = 4 + u3 * 2`,
converted to Cartesian coordinates. -/
noncomputable def cloudPosition (u1 u2 u3 : ℝ) : ℝ × ℝ × ℝ :=
  let theta := u1 * Real.pi * 2
  let phi := Real.arccos (u2 * 2 - 1)
  let radius := 4 + u3 * 2
  (radius * Real.sin phi * Real.cos theta,
   radius * Real.sin phi * Real.sin theta,
   radius * Real.cos phi)

/-- Position of particle i of the generated cloud: the generation loop
consumes six Math.random() draws per particle (theta, phi, radius, then
three shader seeds), so particle i uses draws 6i, 6i+1, 6i+2 for its
position. -/
noncomputable def cloudPoint (rnd : ℕ → ℝ) (i : ℕ) : ℝ × ℝ × ℝ :=
  cloudPosition (rnd (6 * i)) (rnd (6 * i + 1)) (rnd (6 * i + 2))

/-- Euclidean distance of a generated point from the origin. -/
noncomputable def originDist (p : ℝ × ℝ × ℝ) : ℝ :=
  Real.sqrt (p.1 ^ 2 + p.2.1 ^ 2 + p.2.2 ^ 2)

/-! ### Configuration store and generator (store.ts, gemini.ts, Controls) -/

/-- The particle appearance configuration of the store. -/
structure ParticleConfig where
  color1 : String
  color2 : String
  particleSize : ℚ
  speed : ℚ
  noiseScale : ℚ
  interactionRadius : ℚ
  particleCount : ℚ
deriving DecidableEq

/-- DEFAULT_CONFIG of store.ts. -/
def DEFAULT_CONFIG : ParticleConfig where
  color1 := "#00ffff"
  color2 := "#ff00ff"
  particleSize := 0.15
  speed := 1.0
  noiseScale := 1.0
  interactionRadius := 2.0
  particleCount := 8000

/-- A `Partial<ParticleConfig>`: every field optional, as parsed from the
JSON response of the generation service. -/
structure PartialParticleConfig where
  color1 : Option String := none
  color2 : Option String := none
  particleSize : Option ℚ := none
  speed : Option ℚ := none
  noiseScale : Option ℚ := none
  interactionRadius : Option ℚ := none
  particleCount : Option ℚ := none
deriving DecidableEq

/-- The `setConfig` merge of store.ts,
`{ ...state.config, ...newConfig }`: a field present in the update
overwrites the prior value, an absent field keeps it. -/
def setConfigMerge (prior : ParticleConfig) (p : PartialParticleConfig) :
    ParticleConfig where
  color1 := p.color1.getD prior.color1
  color2 := p.color2.getD prior.color2
  particleSize := p.particleSize.getD prior.particleSize
  speed := p.speed.getD prior.speed
  noiseScale := p.noiseScale.getD prior.noiseScale
  interactionRadius := p.interactionRadius.getD prior.interactionRadius
  particleCount := p.particleCount.getD prior.particleCount

/-- Outcome of `generateParticleConfig` in services/gemini.ts: a failed
request throws; a response without text throws "No response text from
Gemini"; otherwise the text is JSON-parsed (a parse failure throws).  The
request transport and the JSON parser are modelled as parameters. -/
def generateParticleConfig (requestError : Bool) (responseText : Option String)
    (parseJson : String → Option PartialParticleConfig) :
    Except String PartialParticleConfig :=
  if requestError then .error "Gemini API Error"
  else
    match responseText with
    | some text =>
        match parseJson text with
        | some cfg => .ok cfg
        | none => .error "JSON parse failure"
    | none => .error "No response text from Gemini"

/-- The configuration-related store fields seen by the Controls component. -/
structure AppConfigState where
  config : ParticleConfig
  error : Option String
deriving DecidableEq

/-- The fixed error message shown by `handleSubmit` on any generation
failure. -/
def GENERATION_ERROR_MESSAGE : String :=
  "Failed to generate config. Check API Key or try again."

/-- The `handleSubmit` handler of the Controls component, given the outcome
of the generation call: on success the partial config is merged via
`setConfig` and the error is cleared; on failure the config is untouched and
the fixed error message is stored. -/
def handleSubmit (genResult : Except String PartialParticleConfig)
    (s : AppConfigState) : AppConfigState :=
  match genResult with
  | .ok newConfig => { config := setConfigMerge s.config newConfig, error := none }
  | .error _ => { config := s.config, error := some GENERATION_ERROR_MESSAGE }

/-! ### Sample inputs used by the concrete witnesses -/

/-- A hand with every landmark at the same point: no finger tip is strictly
closer to the wrist than its PIP joint, so no finger counts as folded. -/
def openHand : Hand := fun _ => ⟨0, 0, 0⟩

/-- A concrete tracker state with a hand present. -/
def sampleTrackerState : TrackerState where
  handPosition := some (1, 2, 3)
  isHandDetected := true
  gesture := some .OPEN

/-- The mocked generation response of the spec's end-to-end test: the five
required fields present, interactionRadius and particleCount absent. -/
def sampleResponse : PartialParticleConfig where
  color1 := some "#0ff"
  color2 := some "#f0f"
  particleSize := some 0.2
  speed := some 2.0
  noiseScale := some 1.5

/-- A JSON parser that fails on every input. -/
def noParse : String → Option PartialParticleConfig := fun _ => none

/-- A random stream that always returns 0. -/
def zeroRnd : ℕ → ℝ := fun _ => 0

/-! ### Theorems -/

/-- C5: on every rendered frame the target scale is 0.4 for a detected hand
with gesture CLOSED, 1.3 for OPEN, and 1.0 when the gesture is NEUTRAL or
null or no hand is detected; the current scale is then blended toward the
target by the fixed factor 0.12. -/
theorem scale_target_and_blend :
    targetScale true (some .CLOSED) = 0.4 ∧
    targetScale true (some .OPEN) = 1.3 ∧
    targetScale true (some .NEUTRAL) = 1.0 ∧
    targetScale true none = 1.0 ∧
    (∀ g, targetScale false g = 1.0) ∧
    ∀ currentScale detected g,
      scaleStep currentScale detected g =
        currentScale + (targetScale detected g - currentScale) * 0.12 := by
  refine ⟨rfl, rfl, rfl, rfl, fun g => rfl, fun c d g => ?_⟩
  unfold scaleStep lerp LERP_SPEED
  ring

/-- C6: the scale lerp is idempotent at its fixed point: one lerp step of s
toward target s with factor 0.12 returns s, so once the current scale equals
the target it stays unchanged while the gesture is unchanged. -/
theorem scale_lerp_fixed_point (s : ℚ) (detected : Bool)
    (g : Option HandGesture) :
    lerp s s LERP_SPEED = s ∧
    (targetScale detected g = s → scaleStep s detected g = s) := by
  constructor
  · unfold lerp; ring
  · intro h
    unfold scaleStep
    rw [h]
    unfold lerp
    ring

theorem scale_lerp_fixed_point_witness :
    lerp 1.0 1.0 LERP_SPEED = 1.0 ∧ scaleStep 1.0 false none = 1.0 :=
  ⟨(scale_lerp_fixed_point 1.0 false none).1,
   (scale_lerp_fixed_point 1.0 false none).2 rfl⟩

/-- C2 counterexample: the claim that the Euclidean magnitude of the momentum
vector never exceeds MAX_SPEED after clamping is false: starting from
momentum (0, 0), one hand-driven update with displacement (20, -20) followed
by the per-frame clamp yields momentum (0.5, 0.5), whose Euclidean magnitude
is √0.5 > 0.5 = MAX_SPEED, because the clamp acts on each component
independently. -/
theorem momentum_clamp_euclidean_counterexample :
    (MAX_SPEED : ℝ) <
      Real.sqrt
        (((clampMomentum (momentumHandStep (0, 0) 20 (-20))).1 : ℝ) ^ 2 +
          ((clampMomentum (momentumHandStep (0, 0) 20 (-20))).2 : ℝ) ^ 2) := by
  have h : clampMomentum (momentumHandStep (0, 0) 20 (-20)) = (0.5, 0.5) := by
    norm_num [clampMomentum, momentumHandStep, clamp, lerp, MOMENTUM_LERP,
      SENSITIVITY, MAX_SPEED, Prod.ext_iff]
  rw [h, Real.lt_sqrt (by norm_num [MAX_SPEED])]
  norm_num [MAX_SPEED]

/-- C2 (amended): after the per-frame clamping step each component of the
momentum vector has absolute value at most MAX_SPEED = 0.5 (each component
is clamped independently; the Euclidean magnitude is only bounded by
MAX_SPEED * √2). -/
theorem momentum_clamp_componentwise (m : ℚ × ℚ) :
    |(clampMomentum m).1| ≤ MAX_SPEED ∧ |(clampMomentum m).2| ≤ MAX_SPEED := by
  have h : ∀ v : ℚ, |clamp v (-MAX_SPEED) MAX_SPEED| ≤ MAX_SPEED := by
    intro v
    rw [clamp, abs_le]
    exact ⟨le_max_left _ _,
      max_le (by norm_num [MAX_SPEED]) (min_le_left _ _)⟩
  exact ⟨h m.1, h m.2⟩

/-- C8: when the tracker processes a frame with no hand, all three hand
fields of the store are cleared (position null, flag false, gesture null);
and after any tracker step the detection flag is false exactly when both the
position and the gesture are null. -/
theorem tracker_clear_and_flag (result : Option Hand) (s : TrackerState) :
    (result = none →
      predictWebcamStep result s =
        { handPosition := none, isHandDetected := false, gesture := none }) ∧
    ((predictWebcamStep result s).isHandDetected = false ↔
      (predictWebcamStep result s).handPosition = none ∧
      (predictWebcamStep result s).gesture = none) := by
  cases result with
  | none => exact ⟨fun _ => rfl, by simp [predictWebcamStep]⟩
  | some l => exact ⟨fun h => Option.noConfusion h, by simp [predictWebcamStep]⟩

theorem tracker_clear_and_flag_witness :
    predictWebcamStep none sampleTrackerState =
      { handPosition := none, isHandDetected := false, gesture := none } :=
  (tracker_clear_and_flag none sampleTrackerState).1 rfl

/-- C9: while a hand is detected the interaction-radius uniform is lerped
with factor 0.1 toward config.interactionRadius * zInfluence, where the
depth influence zInfluence = clamp(1 + |handZ| * 0.5, 0.5, 3.0) lies in
[0.5, 3.0], is monotone in the depth magnitude, and is in fact always at
least 1, so for a nonnegative configured radius the target never falls below
it. -/
theorem interact_radius_depth (handZ configRadius u : ℚ) :
    0.5 ≤ zInfluence handZ ∧
    zInfluence handZ ≤ 3.0 ∧
    1 ≤ zInfluence handZ ∧
    (∀ z2, |handZ| ≤ |z2| → zInfluence handZ ≤ zInfluence z2) ∧
    (0 ≤ configRadius → configRadius ≤ configRadius * zInfluence handZ) ∧
    interactRadiusStep u configRadius handZ =
      lerp u (configRadius * zInfluence handZ) 0.1 := by
  have h1 : ∀ z : ℚ, 1 ≤ zInfluence z := by
    intro z
    have hz : (0 : ℚ) ≤ |z| * 0.5 := mul_nonneg (abs_nonneg z) (by norm_num)
    have : (1 : ℚ) ≤ min 3.0 (1 + |z| * 0.5) :=
      le_min (by norm_num) (by linarith)
    exact le_trans this (le_max_right _ _)
  refine ⟨le_max_left _ _, max_le (by norm_num) (min_le_left _ _), h1 handZ,
    ?_, fun hr => le_mul_of_one_le_right hr (h1 handZ), rfl⟩
  intro z2 hz
  have hmul : |handZ| * 0.5 ≤ |z2| * 0.5 :=
    mul_le_mul_of_nonneg_right hz (by norm_num)
  exact max_le_max le_rfl (min_le_min le_rfl (by linarith))

theorem interact_radius_depth_witness :
    (1 : ℚ) ≤ 1 * zInfluence 2 ∧ zInfluence 2 ≤ zInfluence 3 :=
  ⟨(interact_radius_depth 2 1 0).2.2.2.2.1 (by norm_num),
   (interact_radius_depth 2 1 0).2.2.2.1 3 (by norm_num)⟩

/-- C3: the setConfig merge keeps every field absent from the partial update
at its prior value and overwrites every field present in the update, for all
seven configuration fields. -/
theorem setConfig_merge_fields (prior : ParticleConfig)
    (p : PartialParticleConfig) :
    (p.color1 = none → (setConfigMerge prior p).color1 = prior.color1) ∧
    (∀ v, p.color1 = some v → (setConfigMerge prior p).color1 = v) ∧
    (p.color2 = none → (setConfigMerge prior p).color2 = prior.color2) ∧
    (∀ v, p.color2 = some v → (setConfigMerge prior p).color2 = v) ∧
    (p.particleSize = none →
      (setConfigMerge prior p).particleSize = prior.particleSize) ∧
    (∀ v, p.particleSize = some v →
      (setConfigMerge prior p).particleSize = v) ∧
    (p.speed = none → (setConfigMerge prior p).speed = prior.speed) ∧
    (∀ v, p.speed = some v → (setConfigMerge prior p).speed = v) ∧
    (p.noiseScale = none →
      (setConfigMerge prior p).noiseScale = prior.noiseScale) ∧
    (∀ v, p.noiseScale = some v → (setConfigMerge prior p).noiseScale = v) ∧
    (p.interactionRadius = none →
      (setConfigMerge prior p).interactionRadius = prior.interactionRadius) ∧
    (∀ v, p.interactionRadius = some v →
      (setConfigMerge prior p).interactionRadius = v) ∧
    (p.particleCount = none →
      (setConfigMerge prior p).particleCount = prior.particleCount) ∧
    (∀ v, p.particleCount = some v →
      (setConfigMerge prior p).particleCount = v) := by
  refine ⟨?_, ?_, ?_, ?_, ?_, ?_, ?_, ?_, ?_, ?_, ?_, ?_, ?_, ?_⟩ <;>
    first
      | (intro v h; simp [setConfigMerge, h])
      | (intro h; simp [setConfigMerge, h])

theorem setConfig_merge_fields_witness :
    (setConfigMerge DEFAULT_CONFIG sampleResponse).interactionRadius =
        DEFAULT_CONFIG.interactionRadius ∧
    (setConfigMerge DEFAULT_CONFIG sampleResponse).color1 = "#0ff" :=
  ⟨(setConfig_merge_fields DEFAULT_CONFIG
      sampleResponse).2.2.2.2.2.2.2.2.2.2.1 rfl,
   (setConfig_merge_fields DEFAULT_CONFIG sampleResponse).2.1 "#0ff" rfl⟩

/-- C4: whenever the generation call fails (request error, missing response
text, or JSON parse failure), the resulting submit leaves the stored
configuration exactly unchanged and reports the failure only through the
fixed error message. -/
theorem generation_failure_preserves_config (requestError : Bool)
    (responseText : Option String)
    (parseJson : String → Option PartialParticleConfig) (s : AppConfigState)
    (hfail : requestError = true ∨ responseText = none ∨
      ∃ text, responseText = some text ∧ parseJson text = none) :
    (∃ e, generateParticleConfig requestError responseText parseJson =
      .error e) ∧
    (handleSubmit (generateParticleConfig requestError responseText parseJson)
      s).config = s.config ∧
    (handleSubmit (generateParticleConfig requestError responseText parseJson)
      s).error = some GENERATION_ERROR_MESSAGE := by
  have herr : ∃ e,
      generateParticleConfig requestError responseText parseJson = .error e := by
    rcases hfail with h | h | ⟨text, ht, hp⟩
    · subst h
      exact ⟨"Gemini API Error", by simp [generateParticleConfig]⟩
    · subst h
      cases requestError
      · exact ⟨"No response text from Gemini", by simp [generateParticleConfig]⟩
      · exact ⟨"Gemini API Error", by simp [generateParticleConfig]⟩
    · subst ht
      cases requestError
      · exact ⟨"JSON parse failure", by simp [generateParticleConfig, hp]⟩
      · exact ⟨"Gemini API Error", by simp [generateParticleConfig]⟩
  obtain ⟨e, he⟩ := herr
  rw [he]
  exact ⟨⟨e, rfl⟩, rfl, rfl⟩

theorem generation_failure_preserves_config_witness :
    (handleSubmit (generateParticleConfig true none noParse)
        ⟨DEFAULT_CONFIG, none⟩).config = DEFAULT_CONFIG ∧
    (handleSubmit (generateParticleConfig true none noParse)
        ⟨DEFAULT_CONFIG, none⟩).error = some GENERATION_ERROR_MESSAGE :=
  ⟨(generation_failure_preserves_config true none noParse
      ⟨DEFAULT_CONFIG, none⟩ (Or.inl rfl)).2.1,
   (generation_failure_preserves_config true none noParse
      ⟨DEFAULT_CONFIG, none⟩ (Or.inl rfl)).2.2⟩

/-! ### Helper lemmas for the gesture classifier -/

lemma distSq_nonneg (a b : Landmark) : 0 ≤ distSq a b := by
  unfold distSq
  positivity

lemma distSq_lt_iff_dist (a b c d : Landmark) :
    distSq a b < distSq c d ↔ landmarkDist a b < landmarkDist c d := by
  unfold landmarkDist
  rw [Real.sqrt_lt_sqrt_iff (by exact_mod_cast distSq_nonneg a b)]
  exact_mod_cast Iff.rfl

/-- C1: for every detected hand the classifier counts, among index, middle,
ring and pinky (thumb excluded), the fingers whose tip is strictly closer to
the wrist than their PIP joint, and maps the count to a gesture: at least 4
folded gives CLOSED, at most 1 gives OPEN, 2 or 3 give NEUTRAL. -/
theorem gesture_classifier_thresholds (l : Hand) :
    (∀ tipIdx pipIdx : Fin 21,
      isFingerFolded l tipIdx pipIdx = true ↔
        landmarkDist (l tipIdx) (l 0) < landmarkDist (l pipIdx) (l 0)) ∧
    foldedCount l =
      ([((8 : Fin 21), (6 : Fin 21)), (12, 10), (16, 14), (20, 18)].countP
        fun fp => isFingerFolded l fp.1 fp.2) ∧
    (4 ≤ foldedCount l → detectGesture l = .CLOSED) ∧
    (foldedCount l ≤ 1 → detectGesture l = .OPEN) ∧
    (2 ≤ foldedCount l → foldedCount l ≤ 3 → detectGesture l = .NEUTRAL) := by
  refine ⟨?_, ?_, ?_, ?_, ?_⟩
  · intro tipIdx pipIdx
    rw [isFingerFolded, decide_eq_true_iff]
    exact distSq_lt_iff_dist (l tipIdx) (l 0) (l pipIdx) (l 0)
  · simp only [foldedCount, List.countP_cons, List.countP_nil]
    cases isFingerFolded l 8 6 <;> cases isFingerFolded l 12 10 <;>
      cases isFingerFolded l 16 14 <;> cases isFingerFolded l 20 18 <;> simp
  · intro h4
    unfold detectGesture classifyGesture
    rw [if_pos (by omega : foldedCount l ≥ 4)]
  · intro hle
    unfold detectGesture classifyGesture
    rw [if_neg (by omega : ¬ foldedCount l ≥ 4), if_pos hle]
  · intro h2 h3
    unfold detectGesture classifyGesture
    rw [if_neg (by omega : ¬ foldedCount l ≥ 4),
      if_neg (by omega : ¬ foldedCount l ≤ 1)]

theorem gesture_classifier_thresholds_witness :
    foldedCount openHand ≤ 1 ∧ detectGesture openHand = .OPEN := by
  have hf : foldedCount openHand ≤ 1 := by
    norm_num [foldedCount, isFingerFolded, distSq, openHand]
  exact ⟨hf, (gesture_classifier_thresholds openHand).2.2.2.1 hf⟩

/-! ### Helper lemmas for the idle momentum decay -/

lemma FRICTION_pos : (0 : ℚ) < FRICTION := by norm_num [FRICTION]

lemma FRICTION_lt_one : FRICTION < 1 := by norm_num [FRICTION]

lemma frictionStep_zero : frictionStep 0 = 0 := by
  norm_num [frictionStep]

lemma frictionStep_abs_le (m : ℚ) : |frictionStep m| ≤ |m| := by
  unfold frictionStep
  split_ifs with h
  · simp
  · rw [abs_mul, abs_of_pos FRICTION_pos]
    calc |m| * FRICTION ≤ |m| * 1 :=
          mul_le_mul_of_nonneg_left (le_of_lt FRICTION_lt_one) (abs_nonneg m)
    _ = |m| := mul_one _

lemma frictionStep_abs_lt (m : ℚ) (hm : m ≠ 0) : |frictionStep m| < |m| := by
  unfold frictionStep
  split_ifs with h
  · simpa using abs_pos.mpr hm
  · rw [abs_mul, abs_of_pos FRICTION_pos]
    calc |m| * FRICTION < |m| * 1 :=
          mul_lt_mul_of_pos_left FRICTION_lt_one (abs_pos.mpr hm)
    _ = |m| := mul_one _

lemma frictionStep_eq_zero_or_ge (x : ℚ) :
    frictionStep x = 0 ∨ 0.0001 ≤ |frictionStep x| := by
  unfold frictionStep
  split_ifs with h
  · exact Or.inl rfl
  · exact Or.inr (not_lt.mp h)

lemma frictionIter_succ_eq (n : ℕ) (m : ℚ) :
    frictionIter (n + 1) m = frictionStep (frictionIter n m) := rfl

lemma frictionIter_zero_succ (n : ℕ) (m : ℚ) (h : frictionIter n m = 0) :
    frictionIter (n + 1) m = 0 := by
  rw [frictionIter_succ_eq, h, frictionStep_zero]

lemma frictionIter_cases (m : ℚ) (n : ℕ) :
    frictionIter n m = 0 ∨ frictionIter n m = m * FRICTION ^ n := by
  induction n with
  | zero => exact Or.inr (by simp [frictionIter])
  | succ n ih =>
      rcases ih with h | h
      · exact Or.inl (frictionIter_zero_succ n m h)
      · rw [frictionIter_succ_eq, h]
        unfold frictionStep
        split_ifs with hs
        · exact Or.inl rfl
        · exact Or.inr (by ring)

lemma frictionIter_eventually_zero (m : ℚ) : ∃ N, frictionIter N m = 0 := by
  by_cases hm : m = 0
  · exact ⟨0, by simp [frictionIter, hm]⟩
  · have hm' : 0 < |m| := abs_pos.mpr hm
    obtain ⟨n, hn⟩ := exists_pow_lt_of_lt_one
      (show (0 : ℚ) < 0.0001 / |m| by positivity) FRICTION_lt_one
    have hsmall : |m * FRICTION ^ (n + 1)| < 0.0001 := by
      rw [abs_mul, abs_pow, abs_of_pos FRICTION_pos]
      have hstep : FRICTION ^ (n + 1) ≤ FRICTION ^ n :=
        pow_le_pow_of_le_one (le_of_lt FRICTION_pos)
          (le_of_lt FRICTION_lt_one) (by omega)
      have hlt : |m| * FRICTION ^ n < 0.0001 := by
        rw [lt_div_iff₀ hm'] at hn
        linarith [hn]
      have hmono : |m| * FRICTION ^ (n + 1) ≤ |m| * FRICTION ^ n :=
        mul_le_mul_of_nonneg_left hstep (abs_nonneg m)
      linarith
    refine ⟨n + 2, ?_⟩
    rcases frictionStep_eq_zero_or_ge (frictionIter (n + 1) m) with h0 | hge
    · rw [frictionIter_succ_eq]
      exact h0
    · rcases frictionIter_cases m (n + 2) with h | h
      · exact h
      · exfalso
        rw [← frictionIter_succ_eq, h] at hge
        have hsmall2 : |m * FRICTION ^ (n + 2)| < 0.0001 := by
          rw [abs_mul, abs_pow, abs_of_pos FRICTION_pos] at hsmall ⊢
          have : FRICTION ^ (n + 2) ≤ FRICTION ^ (n + 1) :=
            pow_le_pow_of_le_one (le_of_lt FRICTION_pos)
              (le_of_lt FRICTION_lt_one) (by omega)
          have := mul_le_mul_of_nonneg_left this (abs_nonneg m)
          linarith
        linarith

lemma frictionIter_zero_stable (m : ℚ) {N k : ℕ}
    (hN : frictionIter N m = 0) (hk : N ≤ k) : frictionIter k m = 0 := by
  induction k, hk using Nat.le_induction with
  | base => exact hN
  | succ k hk ih => exact frictionIter_zero_succ k m ih

/-- C7: over consecutive frames with no hand detected, each momentum
component is multiplied by FRICTION = 0.98 (unless the result falls below
the 0.0001 threshold, in which case it snaps to exactly 0), its absolute
value never increases — strictly decreasing while nonzero — and for every
initial value there is a frame count after which it is exactly 0 forever. -/
theorem momentum_idle_decay (m : ℚ) :
    (¬ |m * FRICTION| < 0.0001 → frictionStep m = m * FRICTION) ∧
    (|m * FRICTION| < 0.0001 → frictionStep m = 0) ∧
    |frictionStep m| ≤ |m| ∧
    (m ≠ 0 → |frictionStep m| < |m|) ∧
    (∀ n, |frictionIter (n + 1) m| ≤ |frictionIter n m|) ∧
    ∃ N, ∀ k, N ≤ k → frictionIter k m = 0 := by
  refine ⟨fun h => by rw [frictionStep, if_neg h],
    fun h => by rw [frictionStep, if_pos h],
    frictionStep_abs_le m,
    frictionStep_abs_lt m,
    fun n => by rw [frictionIter_succ_eq]; exact frictionStep_abs_le _,
    ?_⟩
  obtain ⟨N, hN⟩ := frictionIter_eventually_zero m
  exact ⟨N, fun k hk => frictionIter_zero_stable m hN hk⟩

theorem momentum_idle_decay_witness :
    frictionStep 1 = 1 * FRICTION ∧ |frictionStep 1| < |(1 : ℚ)| :=
  ⟨(momentum_idle_decay 1).1
      (by rw [one_mul, abs_of_pos FRICTION_pos]; norm_num [FRICTION]),
   (momentum_idle_decay 1).2.2.2.1 (by norm_num)⟩

/-! ### Helper lemma for the particle cloud radius -/

lemma originDist_cloudPosition (u1 u2 u3 : ℝ) (h0 : 0 ≤ u3) :
    originDist (cloudPosition u1 u2 u3) = 4 + u3 * 2 := by
  unfold originDist cloudPosition
  have h1 : Real.cos (u1 * Real.pi * 2) ^ 2 + Real.sin (u1 * Real.pi * 2) ^ 2
      = 1 := Real.cos_sq_add_sin_sq _
  have h2 : Real.sin (Real.arccos (u2 * 2 - 1)) ^ 2 +
      Real.cos (Real.arccos (u2 * 2 - 1)) ^ 2 = 1 := Real.sin_sq_add_cos_sq _
  have key :
      ((4 + u3 * 2) * Real.sin (Real.arccos (u2 * 2 - 1)) *
          Real.cos (u1 * Real.pi * 2)) ^ 2 +
        ((4 + u3 * 2) * Real.sin (Real.arccos (u2 * 2 - 1)) *
          Real.sin (u1 * Real.pi * 2)) ^ 2 +
        ((4 + u3 * 2) * Real.cos (Real.arccos (u2 * 2 - 1))) ^ 2 =
        (4 + u3 * 2) ^ 2 := by
    linear_combination
      ((4 + u3 * 2) ^ 2 * Real.sin (Real.arccos (u2 * 2 - 1)) ^ 2) * h1 +
        (4 + u3 * 2) ^ 2 * h2
  rw [key, Real.sqrt_sq (by linarith)]

/-- C10: every particle position produced by cloud generation lies at a
distance in [4, 6) from the origin: its radius is drawn as 4 plus a value in
[0, 2) and the spherical direction preserves the norm; this holds for each
of the particleCount points whenever the cloud is regenerated. -/
theorem cloud_radius_bounds (rnd : ℕ → ℝ)
    (hr : ∀ n, 0 ≤ rnd n ∧ rnd n < 1) (particleCount i : ℕ)
    (_hi : i < particleCount) :
    4 ≤ originDist (cloudPoint rnd i) ∧ originDist (cloudPoint rnd i) < 6 := by
  obtain ⟨h0, h1⟩ := hr (6 * i + 2)
  unfold cloudPoint
  rw [originDist_cloudPosition _ _ _ h0]
  constructor <;> linarith

theorem cloud_radius_bounds_witness :
    4 ≤ originDist (cloudPoint zeroRnd 0) ∧
      originDist (cloudPoint zeroRnd 0) < 6 :=
  cloud_radius_bounds zeroRnd
    (fun _ => ⟨le_of_eq rfl, by norm_num [zeroRnd]⟩) 1 0 (by norm_num)

end Kinetic
